import Mathlib

/-!
Verification development for a small PostgreSQL-backed student/score CRUD
script (src/homework/main.py and src/homework/clear_tables.py).

The database is shallowly embedded: a `DB` value carries the two tables
(as lists of typed rows) together with existence flags and the identity
sequence of the students table.  Each SQL statement issued by the script
is translated into a Lean function from `DB` to `Except DBError`, yielding
the new state, the result rows and the affected-row count -- exactly the
information psycopg2 exposes through a cursor.  The two QueryExecutor
wrappers are translated as higher-order functions over such statement
semantics, recording the printed diagnostics, the re-raised error (if
any), and the final state of the cursor they open.
-/

/-- A single SQL value, as it appears in a result row. -/
inductive Value where
  | vint (i : Int)
  | vstr (s : String)
  | vrat (q : Rat)
  | vnull
deriving DecidableEq

/-- A result row: the list of selected column values. -/
abbrev Row := List Value

/-- A row of the students table: serial id, name, birth date, group number. -/
structure Student where
  id : Int
  name : String
  birthDate : String
  group : Int
deriving DecidableEq

/-- A row of the scores table: generated token id, student reference, score. -/
structure Score where
  id : Int
  studentId : Int
  score : Int
deriving DecidableEq

/-- The database state: existence flags for the two tables created by the
script, their contents, the students identity sequence (SERIAL), and a
freshness counter standing in for gen_random_uuid. -/
structure DB where
  studentsTableExists : Bool
  scoresTableExists : Bool
  students : List Student
  scores : List Score
  nextStudentId : Int
  nextScoreToken : Int
deriving DecidableEq

/-- The three psycopg2 exception classes caught by the script. -/
inductive ErrKind where
  | operational
  | programming
  | integrity
deriving DecidableEq

/-- A database error: its class and its message text. -/
structure DBError where
  kind : ErrKind
  msg : String
deriving DecidableEq

/-- A psycopg2 cursor after execution: fetched rows, the affected-row
count, and whether the cursor has been closed. -/
structure Cursor where
  rows : List Row
  rowcount : Int
  closed : Bool
deriving DecidableEq

/-- The semantics of one SQL statement (with its parameters already bound):
given the database state it either fails with a database error, leaving the
state unchanged, or yields the new state, the result rows and the
affected-row count. -/
abbrev Query := DB → Except DBError (DB × List Row × Int)

/-- The success line printed by both executor methods. -/
def querySuccessMsg (query_name : String) : String :=
  "Query \u0022" ++ (query_name ++ "\u0022 executed successfully!")

/-- The failure line printed by both executor methods. -/
def queryFailMsg (query_name : String) (m : String) : String :=
  "Failed to " ++ (query_name ++ (": error \u0022" ++ (m ++ "\u0022 occurred.")))

/-- Result of QueryExecutor.execute_query: the new database state, the
printed lines, the re-raised error when one propagates, and the final state
of the scoped cursor opened by the with-block. -/
structure ExecResult where
  db : DB
  output : List String
  raised : Option DBError
  cursor : Cursor
deriving DecidableEq

/-- QueryExecutor.execute_query: runs the statement inside a scoped cursor
(closed on exit of the with-block).  On success it prints the success line
when print_success is set.  On an operational, programming or integrity
failure it prints a diagnostic tagged with the query name and re-raises
exactly when raise_exc is set. -/
def execute_query (q : Query) (query_name : String)
    (raise_exc : Bool) (print_success : Bool) (db : DB) : ExecResult :=
  match q db with
  | .ok (db2, rows, rc) =>
    { db := db2
      output := if print_success then [querySuccessMsg query_name] else []
      raised := none
      cursor := ⟨rows, rc, true⟩ }
  | .error e =>
    { db := db
      output := [queryFailMsg query_name e.msg]
      raised := if raise_exc then some e else none
      cursor := ⟨[], -1, true⟩ }

/-- Result of QueryExecutor.execute_query_return_cursor: additionally
records the value returned to the caller (the live cursor on success,
absence on a swallowed failure, nothing when the error re-raises) and the
final state of the cursor object the call opened. -/
structure ExecCursorResult where
  db : DB
  output : List String
  raised : Option DBError
  returned : Option Cursor
  cursor : Cursor
deriving DecidableEq

/-- QueryExecutor.execute_query_return_cursor: opens a cursor, runs the
statement, and returns the live (unclosed) cursor on success.  On failure
it prints a diagnostic; when raise_exc is set it closes the cursor it
opened and re-raises, otherwise it swallows the error and returns absence,
leaving the opened cursor unclosed. -/
def execute_query_return_cursor (q : Query) (query_name : String)
    (raise_exc : Bool) (print_success : Bool) (db : DB) : ExecCursorResult :=
  match q db with
  | .ok (db2, rows, rc) =>
    { db := db2
      output := if print_success then [querySuccessMsg query_name] else []
      raised := none
      returned := some ⟨rows, rc, false⟩
      cursor := ⟨rows, rc, false⟩ }
  | .error e =>
    if raise_exc then
      { db := db
        output := [queryFailMsg query_name e.msg]
        raised := some e
        returned := none
        cursor := ⟨[], -1, true⟩ }
    else
      { db := db
        output := [queryFailMsg query_name e.msg]
        raised := none
        returned := none
        cursor := ⟨[], -1, false⟩ }

/-- ROW_LIMIT constant from the script. -/
def ROW_LIMIT : Nat := 30

/-- The error raised when the students relation is missing. -/
def errNoStudents : DBError :=
  ⟨.programming, "relation \u0022students\u0022 does not exist"⟩

/-- The error raised when the scores relation is missing. -/
def errNoScores : DBError :=
  ⟨.programming, "relation \u0022scores\u0022 does not exist"⟩

/-- Semantics of CREATE TABLE IF NOT EXISTS students (...): a no-op when
the table exists, otherwise creates the empty table with its identity
sequence starting at 1. -/
def createStudentsQuery : Query := fun db =>
  if db.studentsTableExists then .ok (db, [], -1)
  else .ok ({ db with
                studentsTableExists := true
                students := []
                nextStudentId := 1 }, [], -1)

/-- Semantics of CREATE TABLE IF NOT EXISTS scores (...): a no-op when the
table exists; otherwise creating it requires the referenced students table
to exist (the foreign key would be rejected otherwise). -/
def createScoresQuery : Query := fun db =>
  if db.scoresTableExists then .ok (db, [], -1)
  else if db.studentsTableExists then
    .ok ({ db with scoresTableExists := true, scores := [] }, [], -1)
  else .error errNoStudents

/-- CreateTable.create_students_table: issues the students DDL with
raise_exc set. -/
def create_students_table (db : DB) : ExecResult :=
  execute_query createStudentsQuery "create students table" true true db

/-- CreateTable.create_scores_table: issues the scores DDL with raise_exc
set. -/
def create_scores_table (db : DB) : ExecResult :=
  execute_query createScoresQuery "create scores table" true true db

/-- One schema-setup pass as main performs it: students DDL then scores
DDL; yields the resulting state and the error (if any) propagated by each
of the two calls. -/
def setup_tables_run (db : DB) : DB × Option DBError × Option DBError :=
  ((create_scores_table (create_students_table db).db).db,
   (create_students_table db).raised,
   (create_scores_table (create_students_table db).db).raised)

/-- A synthetic student row produced by the faker generator: name, birth
date, group number. -/
abbrev StudentRow := String × String × Int

/-- Semantics of INSERT INTO students (name, birth_date, group)
VALUES (...): appends a fresh row using the identity sequence; fails when
the table does not exist. -/
def insertStudentQuery (row : StudentRow) : Query := fun db =>
  if db.studentsTableExists then
    .ok ({ db with
             students := db.students ++
               [⟨db.nextStudentId, row.1, row.2.1, row.2.2⟩]
             nextStudentId := db.nextStudentId + 1 }, [], 1)
  else .error errNoStudents

/-- The per-row insert loop of InsertData.insert_students: each row is
inserted through execute_query with raise_exc set and print_success
cleared, so the first failing insert re-raises and aborts the loop. -/
def runStudentInserts : List StudentRow → DB → DB × List String × Option DBError
  | [], db => (db, [], none)
  | row :: rest, db =>
    let r := execute_query (insertStudentQuery row) "insert students" true false db
    match r.raised with
    | some e => (r.db, r.output, some e)
    | none =>
      ((runStudentInserts rest r.db).1,
       r.output ++ (runStudentInserts rest r.db).2.1,
       (runStudentInserts rest r.db).2.2)

/-- The rows the faker generator yields for the first n students. -/
def studentRows (fake : Nat → StudentRow) (n : Nat) : List StudentRow :=
  (List.range n).map fake

/-- Result of a populator call: final state, printed lines, and the error
propagating out of it, if any. -/
structure InsertResult where
  db : DB
  output : List String
  raised : Option DBError
deriving DecidableEq

/-- The blanket success line printed at the end of insert_students. -/
def studentsFilledMsg : String := "Students table filled successfully!"

/-- The blanket success line printed at the end of insert_scores. -/
def scoresFilledMsg : String := "Scores table filled successfully!"

/-- InsertData.insert_students: inserts students_number synthetic rows one
by one (raise_exc set on each insert, so a failing row aborts the loop and
the error propagates), then prints the blanket success line. -/
def insert_students (fake : Nat → StudentRow) (students_number : Nat)
    (db : DB) : InsertResult :=
  let p := runStudentInserts (studentRows fake students_number) db
  match p.2.2 with
  | some e => ⟨p.1, p.2.1, some e⟩
  | none => ⟨p.1, p.2.1 ++ [studentsFilledMsg], none⟩

/-- Semantics of SELECT id FROM students. -/
def selectIdsQuery : Query := fun db =>
  if db.studentsTableExists then
    .ok (db, db.students.map (fun s => [Value.vint s.id]),
         Int.ofNat db.students.length)
  else .error errNoStudents

/-- The student identifier carried by a fetched id row. -/
def extractId (row : Row) : Int :=
  match row.headD Value.vnull with
  | .vint i => i
  | _ => 0

/-- Semantics of INSERT INTO scores (student_id, score) VALUES (...):
fails when the scores table does not exist, or with an integrity error
when the referenced student is absent; otherwise appends a fresh row. -/
def insertScoreQuery (sid : Int) (sc : Int) : Query := fun db =>
  if db.scoresTableExists then
    if db.students.any (fun s => s.id == sid) then
      .ok ({ db with
               scores := db.scores ++ [⟨db.nextScoreToken, sid, sc⟩]
               nextScoreToken := db.nextScoreToken + 1 }, [], 1)
    else .error ⟨.integrity, "foreign key violation on scores.student_id"⟩
  else .error errNoScores

/-- The per-row insert loop of InsertData.insert_scores over the fetched
id rows: raise_exc is set on each insert, so the first failure aborts. -/
def runScoreInserts (fake : Nat → Int) : Nat → List Row → DB →
    DB × List String × Option DBError
  | _, [], db => (db, [], none)
  | i, row :: rest, db =>
    let r := execute_query (insertScoreQuery (extractId row) (fake i))
        "insert scores" true false db
    match r.raised with
    | some e => (r.db, r.output, some e)
    | none =>
      ((runScoreInserts fake (i + 1) rest r.db).1,
       r.output ++ (runScoreInserts fake (i + 1) rest r.db).2.1,
       (runScoreInserts fake (i + 1) rest r.db).2.2)

/-- InsertData.insert_scores: selects all student identifiers through the
cursor-returning executor; when a cursor comes back it fetches the rows,
closes the cursor, inserts one random score per student (raise_exc set on
each insert) and prints the blanket success line.  When the select failed
(absence returned) nothing further happens. -/
def insert_scores (fake : Nat → Int) (db : DB) : InsertResult :=
  let r := execute_query_return_cursor selectIdsQuery
      "select students\u0027 identifiers" false true db
  match r.returned with
    | none => ⟨r.db, r.output, none⟩
    | some c =>
      let p := runScoreInserts fake 0 c.rows r.db
      match p.2.2 with
      | some e => ⟨p.1, r.output ++ p.2.1, some e⟩
      | none => ⟨p.1, (r.output ++ p.2.1) ++ [scoresFilledMsg], none⟩

/-- Insertion step of the insertion sort modelling ORDER BY. -/
def insertLe {α : Type} (le : α → α → Bool) (a : α) : List α → List α
  | [] => [a]
  | b :: bs => if le a b then a :: b :: bs else b :: insertLe le a bs

/-- Insertion sort modelling the ORDER BY clause. -/
def sortLe {α : Type} (le : α → α → Bool) : List α → List α
  | [] => []
  | a :: as => insertLe le a (sortLe le as)

/-- SQL ordering on column values (only same-typed comparisons occur). -/
def Value.le : Value → Value → Bool
  | .vint a, .vint b => a ≤ b
  | .vstr a, .vstr b => !(decide (b < a))
  | .vrat a, .vrat b => a ≤ b
  | _, _ => true

/-- Whether the needle starts the haystack (character lists). -/
def leadMatch : List Char → List Char → Bool
  | [], _ => true
  | _ :: _, [] => false
  | a :: as, b :: bs => a == b && leadMatch as bs

/-- Whether the needle occurs somewhere in the haystack. -/
def subSearch (needle : List Char) : List Char → Bool
  | [] => needle.isEmpty
  | c :: rest => leadMatch needle (c :: rest) || subSearch needle rest

/-- The basic-latin lowercasing of a string, as a character list. -/
def lowerChars (s : String) : List Char :=
  s.data.map Char.toLower

/-- Case-insensitive substring test, modelling name ILIKE percent-pattern
wrapping of the search text. -/
def strHasSub (hay needle : String) : Bool :=
  subSearch (lowerChars needle) (lowerChars hay)

/-- Rendering of a value, as the table printer shows it. -/
def Value.render : Value → String
  | .vint i => toString i
  | .vstr s => s
  | .vrat q => toString q
  | .vnull => "None"

/-- Two-decimal rendering of the average, modelling the .2f format. -/
def formatAvg (q : Rat) : String :=
  let c : Int := ⌊q * 100 + 1 / 2⌋
  let sign := if c < 0 then "-" else ""
  let n := c.natAbs
  let ip := n / 100
  let fp := n % 100
  sign ++ (toString ip ++ ("." ++ ((if fp < 10 then "0" else "") ++ toString fp)))

/-- Semantics of UPDATE students SET group WHERE id: rewrites matching
rows; the affected-row count is the number of rows whose id matched. -/
def updateGroupQuery (sid g : Int) : Query := fun db =>
  if db.studentsTableExists then
    .ok ({ db with
             students := db.students.map
               (fun s => if s.id == sid then { s with group := g } else s) },
         [], Int.ofNat (db.students.filter (fun s => s.id == sid)).length)
  else .error errNoStudents

/-- Semantics of DELETE FROM students WHERE group: removes the matching
students and, through the ON DELETE CASCADE foreign key, their scores. -/
def deleteGroupQuery (g : Int) : Query := fun db =>
  if db.studentsTableExists then
    .ok ({ db with
           students := db.students.filter (fun s => !(s.group == g))
           scores := db.scores.filter (fun sc =>
             !(((db.students.filter (fun s => s.group == g)).map
                 Student.id).contains sc.studentId)) },
         [], Int.ofNat (db.students.filter (fun s => s.group == g)).length)
  else .error errNoStudents

/-- The rows of SELECT id, name, birth_date FROM students WHERE group
LIMIT ROW_LIMIT. -/
def fetchGroupRows (db : DB) (g : Int) : List Row :=
  ((db.students.filter (fun s => s.group == g)).take ROW_LIMIT).map
    (fun s => [Value.vint s.id, Value.vstr s.name, Value.vstr s.birthDate])

/-- Semantics of SELECT id, name, birth_date FROM students WHERE group
LIMIT ROW_LIMIT. -/
def fetchGroupQuery (g : Int) : Query := fun db =>
  if db.studentsTableExists then
    .ok (db, fetchGroupRows db g, Int.ofNat (fetchGroupRows db g).length)
  else .error errNoStudents

/-- The scores matched by the join of students and scores restricted to
one group, in join order. -/
def groupScores (db : DB) (g : Int) : List Int :=
  (db.students.filter (fun s => s.group == g)).flatMap
    (fun s => (db.scores.filter (fun sc => sc.studentId == s.id)).map Score.score)

/-- The aggregate AVG over the joined rows: null (absence) when the join
is empty. -/
def groupAvg (db : DB) (g : Int) : Option Rat :=
  match groupScores db g with
  | [] => none
  | l => some ((l.sum : Rat) / (l.length : Rat))

/-- Semantics of the aggregate join query: a single result row holding the
average, or SQL null when no row matched. -/
def avgQuery (g : Int) : Query := fun db =>
  if db.studentsTableExists && db.scoresTableExists then
    .ok (db, [[(groupAvg db g).elim Value.vnull Value.vrat]], 1)
  else .error (if db.studentsTableExists then errNoScores else errNoStudents)

/-- Semantics of UPDATE scores SET score WHERE student_id. -/
def updateScoreQuery (sid ns : Int) : Query := fun db =>
  if db.scoresTableExists then
    .ok ({ db with
             scores := db.scores.map
               (fun sc => if sc.studentId == sid then { sc with score := ns } else sc) },
         [], Int.ofNat (db.scores.filter (fun sc => sc.studentId == sid)).length)
  else .error errNoScores

/-- The full students row, as SELECT star yields it. -/
def studentFullRow (s : Student) : Row :=
  [Value.vint s.id, Value.vstr s.name, Value.vstr s.birthDate, Value.vint s.group]

/-- The full scores row, as SELECT star yields it. -/
def scoreFullRow (sc : Score) : Row :=
  [Value.vint sc.id, Value.vint sc.studentId, Value.vint sc.score]

/-- The sort key of a students column. -/
def studentKey (col : String) (s : Student) : Value :=
  if col == "id" then .vint s.id
  else if col == "name" then .vstr s.name
  else if col == "birth_date" then .vstr s.birthDate
  else .vint s.group

/-- The sort key of a scores column. -/
def scoreKey (col : String) (sc : Score) : Value :=
  if col == "id" then .vint sc.id
  else if col == "student_id" then .vint sc.studentId
  else .vint sc.score

/-- Valid column identifiers of the students table. -/
def validStudentCol (c : String) : Bool :=
  c == "id" || c == "name" || c == "birth_date" || c == "group"

/-- Valid column identifiers of the scores table. -/
def validScoreCol (c : String) : Bool :=
  c == "id" || c == "student_id" || c == "score"

/-- The rows of SELECT star FROM students ORDER BY col LIMIT ROW_LIMIT. -/
def sortedStudentRows (db : DB) (col : String) : List Row :=
  ((sortLe (fun a b => Value.le (studentKey col a) (studentKey col b))
      db.students).map studentFullRow).take ROW_LIMIT

/-- The rows of SELECT star FROM scores ORDER BY col LIMIT ROW_LIMIT. -/
def sortedScoreRows (db : DB) (col : String) : List Row :=
  ((sortLe (fun a b => Value.le (scoreKey col a) (scoreKey col b))
      db.scores).map scoreFullRow).take ROW_LIMIT

/-- Semantics of the dynamically built sorted select: the table and column
identifiers are substituted safely, so an unknown table or column (or a
missing table) yields an undefined-identifier error. -/
def sortedQuery (tbl col : String) : Query := fun db =>
  if tbl == "students" then
    if db.studentsTableExists && validStudentCol col then
      .ok (db, sortedStudentRows db col, Int.ofNat (sortedStudentRows db col).length)
    else if db.studentsTableExists then
      .error ⟨.programming, "column does not exist"⟩
    else .error errNoStudents
  else if tbl == "scores" then
    if db.scoresTableExists && validScoreCol col then
      .ok (db, sortedScoreRows db col, Int.ofNat (sortedScoreRows db col).length)
    else if db.scoresTableExists then
      .error ⟨.programming, "column does not exist"⟩
    else .error errNoScores
  else .error ⟨.programming, "relation does not exist"⟩

/-- Semantics of SELECT id, name, birth_date, group FROM students WHERE
name ILIKE the percent-wrapped pattern. -/
def searchRows (db : DB) (partName : String) : List Row :=
  (db.students.filter (fun s => strHasSub s.name partName)).map studentFullRow

/-- Semantics of the ILIKE name search statement. -/
def searchQuery (partName : String) : Query := fun db =>
  if db.studentsTableExists then
    .ok (db, searchRows db partName, Int.ofNat (searchRows db partName).length)
  else .error errNoStudents

/-- Result of a mutator or aggregate call: final state, printed lines, and
the final state of the cursor the call received, if any. -/
structure MutResult where
  db : DB
  output : List String
  cursorFinal : Option Cursor
deriving DecidableEq

/-- Result of a querier call: additionally the returned row list, absence
when execution failed. -/
structure FetchResult where
  db : DB
  output : List String
  result : Option (List Row)
  cursorFinal : Option Cursor
deriving DecidableEq

/-- The no-matching-student line of update_group and update_score. -/
def noMatchStudentMsg (sid : Int) : String :=
  "No student with id " ++ (toString sid ++ " found.")

/-- The success line of update_group. -/
def updateGroupOkMsg (sid g : Int) : String :=
  "Student with id " ++ (toString sid ++ (" now in group " ++ (toString g ++ ".")))

/-- UpdateData.update_group: runs the parameterized update through the
cursor-returning executor; when a cursor comes back it reads the
affected-row count, closes the cursor, and prints the no-match line on
count zero, the success line otherwise. -/
def update_group (student_id new_group : Int) (db : DB) : MutResult :=
  let r := execute_query_return_cursor (updateGroupQuery student_id new_group)
      "update student\u0027s group" false true db
  match r.returned with
  | none => ⟨r.db, r.output, none⟩
  | some c =>
    if c.rowcount == 0 then
      ⟨r.db, r.output ++ [noMatchStudentMsg student_id], some { c with closed := true }⟩
    else
      ⟨r.db, r.output ++ [updateGroupOkMsg student_id new_group],
       some { c with closed := true }⟩

/-- The no-matching-group line of delete_group. -/
def noMatchGroupMsg (g : Int) : String :=
  "No student from group " ++ (toString g ++ " found.")

/-- The success line of delete_group. -/
def deleteOkMsg (n g : Int) : String :=
  toString n ++ (" student(s) of group " ++ (toString g ++ " deleted."))

/-- DeleteData.delete_group: parameterized delete with the same
affected-row-count branching as update_group. -/
def delete_group (group : Int) (db : DB) : MutResult :=
  let r := execute_query_return_cursor (deleteGroupQuery group)
      "delete group" false true db
  match r.returned with
  | none => ⟨r.db, r.output, none⟩
  | some c =>
    if c.rowcount == 0 then
      ⟨r.db, r.output ++ [noMatchGroupMsg group], some { c with closed := true }⟩
    else
      ⟨r.db, r.output ++ [deleteOkMsg c.rowcount group],
       some { c with closed := true }⟩

/-- The found line of fetch_group. -/
def fetchedMsg (g : Int) : String :=
  "Group number " ++ (toString g ++ " fetched!")

/-- QueryData.fetch_group: selects the group rows (capped at ROW_LIMIT);
when a cursor comes back it fetches the rows, prints the found line only
when they are non-empty, closes the cursor and returns the list; absence
is returned when execution failed. -/
def fetch_group (group : Int) (db : DB) : FetchResult :=
  let r := execute_query_return_cursor (fetchGroupQuery group)
      "fetch group" false true db
  match r.returned with
  | none => ⟨r.db, r.output, none, none⟩
  | some c =>
    ⟨r.db, r.output ++ (if c.rows.isEmpty then [] else [fetchedMsg group]),
     some c.rows, some { c with closed := true }⟩

/-- The not-found line of calculate_group_average_score. -/
def noGroupMsg (g : Int) : String :=
  "No group number " ++ (toString g ++ " in the DB.")

/-- The average line of calculate_group_average_score. -/
def avgLineOf (g : Int) (v : Value) : String :=
  "Group\u0027s number " ++ (toString g ++ (" average score: " ++
    (match v with
     | .vrat q => formatAvg q
     | w => w.render)))

/-- ComplexQuery.calculate_group_average_score: runs the aggregate join;
when a cursor comes back it fetches the single row, closes the cursor, and
prints the formatted average when the fetched row exists and its first
column is not null, the not-found line otherwise. -/
def calculate_group_average_score (group : Int) (db : DB) : MutResult :=
  let r := execute_query_return_cursor (avgQuery group)
      "calculate group\u0027s average score" false true db
  match r.returned with
  | none => ⟨r.db, r.output, none⟩
  | some c =>
    match c.rows.head? with
    | some row =>
      match row.headD Value.vnull with
      | Value.vnull =>
        ⟨r.db, r.output ++ [noGroupMsg group], some { c with closed := true }⟩
      | v =>
        ⟨r.db, r.output ++ [avgLineOf group v], some { c with closed := true }⟩
    | none =>
      ⟨r.db, r.output ++ [noGroupMsg group], some { c with closed := true }⟩

/-- The executor tag of fetch_sorted_data. -/
def sortedName (tbl col : String) : String :=
  "fetch data for " ++ (tbl ++ (" table sorted by " ++ col))

/-- AdditionalFeatures.fetch_sorted_data: sorted select with identifiers
substituted safely; returns the rows, or absence when execution failed. -/
def fetch_sorted_data (table column : String) (db : DB) : FetchResult :=
  let r := execute_query_return_cursor (sortedQuery table column)
      (sortedName table column) false true db
  match r.returned with
  | none => ⟨r.db, r.output, none, none⟩
  | some c => ⟨r.db, r.output, some c.rows, some { c with closed := true }⟩

/-- The executor tag of search_student_by_name. -/
def searchTag (partName : String) : String :=
  "search students by name " ++ partName

/-- AdditionalFeatures.search_student_by_name: case-insensitive substring
search on the name column; returns the matching rows, or absence when
execution failed. -/
def search_student_by_name (partName : String) (db : DB) : FetchResult :=
  let r := execute_query_return_cursor (searchQuery partName)
      (searchTag partName) false true db
  match r.returned with
  | none => ⟨r.db, r.output, none, none⟩
  | some c => ⟨r.db, r.output, some c.rows, some { c with closed := true }⟩

/-- The success line of update_score. -/
def updateScoreOkMsg (sid ns : Int) : String :=
  "Student with id " ++ (toString sid ++ (" now has " ++ (toString ns ++ " points.")))

/-- AdditionalFeatures.update_score: parameterized update on scores keyed
by the student reference, with the same affected-row-count branching. -/
def update_score (student_id new_score : Int) (db : DB) : MutResult :=
  let r := execute_query_return_cursor (updateScoreQuery student_id new_score)
      "update student\u0027s score" false true db
  match r.returned with
  | none => ⟨r.db, r.output, none⟩
  | some c =>
    if c.rowcount == 0 then
      ⟨r.db, r.output ++ [noMatchStudentMsg student_id], some { c with closed := true }⟩
    else
      ⟨r.db, r.output ++ [updateScoreOkMsg student_id new_score],
       some { c with closed := true }⟩

/-- One rendered row of the text table. -/
def renderRow (r : Row) : String :=
  String.intercalate " | " (r.map Value.render)

/-- The rendered text table: header line then one line per row. -/
def renderTable (cols : List String) (rows : List Row) : String :=
  String.intercalate "\n" (String.intercalate " | " cols :: rows.map renderRow)

/-- The add_row loop of the table library: adding a row whose width does
not match the column count raises a ValueError carrying both widths; the
first mismatching row aborts the build. -/
def buildRows : List Row → Nat → Except String Unit
  | [], _ => .ok ()
  | r :: rest, n =>
    if r.length == n then buildRows rest n
    else .error ("Row has incorrect number of values, (actual) " ++
      (toString r.length ++ ("!=" ++ (toString n ++ " (expected)"))))

/-- The diagnostic line print_table prints when the build fails. -/
def tableFailMsg (m : String) : String :=
  "Failed to print table: error \u0022" ++ (m ++ "\u0022 occurred.")

/-- print_table: nothing is printed when the row list is absent or empty;
a shape mismatch is caught (ValueError) and reported without a table;
otherwise the rendered table is printed. -/
def print_table (data : Option (List Row)) (column_names : List String) :
    List String :=
  match data with
  | none => []
  | some rows =>
    if rows.isEmpty then []
    else
      match buildRows rows column_names.length with
      | .error m => [tableFailMsg m]
      | .ok _ => [renderTable column_names rows]

/-- A database connection handle: its state and whether it was closed. -/
structure Conn where
  db : DB
  closed : Bool
deriving DecidableEq

/-- Semantics of TRUNCATE TABLE students RESTART IDENTITY CASCADE: empties
the students table, restarts its identity sequence at 1, and cascades the
truncation to the referencing scores table. -/
def truncateQuery : Query := fun db =>
  if db.studentsTableExists then
    .ok ({ db with students := [], scores := [], nextStudentId := 1 }, [], -1)
  else .error errNoStudents

/-- clear_tables: when no connection was obtained it does nothing;
otherwise it issues the single truncate statement through the executor and
closes the connection. -/
def clear_tables : Option Conn → Option Conn × List String
  | none => (none, [])
  | some c =>
    let r := execute_query truncateQuery "clear tables" false true c.db
    (some ⟨r.db, true⟩, r.output)

/-- An empty database in which neither table has been created yet. -/
def emptyDB : DB := ⟨false, false, [], [], 1, 1⟩

/-- A small populated database with both tables present. -/
def sampleDB : DB :=
  ⟨true, true,
   [⟨1, "Ada", "1990-01-01", 5⟩, ⟨2, "Grace", "1992-02-02", 8⟩,
    ⟨3, "Alan", "1993-03-03", 8⟩],
   [⟨1, 1, 50⟩, ⟨2, 2, 80⟩, ⟨3, 3, 90⟩],
   4, 4⟩

/-- A database whose students table exists but is empty. -/
def emptyTablesDB : DB := ⟨true, true, [], [], 1, 1⟩

/-- A fixed faker stream for the witnesses. -/
def fakeStudents : Nat → StudentRow := fun i =>
  ("Student " ++ toString i, "2000-01-01", Int.ofNat (i % 10) + 1)

/-- A fixed score stream for the witnesses. -/
def fakeScores : Nat → Int := fun i => Int.ofNat (i % 101)

/-- A statement that always fails with an operational error. -/
def failingQuery : Query := fun _ =>
  .error ⟨.operational, "server closed the connection unexpectedly"⟩

/-- A statement that always succeeds and yields no rows. -/
def trivialQuery : Query := fun db => .ok (db, [], 0)

/-- A database with one student, whose scores table is missing. -/
def noScoresDB : DB :=
  ⟨true, false, [⟨1, "Ada", "1990-01-01", 5⟩], [], 2, 1⟩

/-- C2: running create_students_table then create_scores_table twice in a
row never fails and leaves the database state identical to running the
pair once: both DDL statements are guarded by if-not-exists, so the second
pass is a no-op. -/
theorem create_tables_idempotent (db : DB) :
    (setup_tables_run ((setup_tables_run db).1)).1 = (setup_tables_run db).1
    ∧ (setup_tables_run db).2.1 = none
    ∧ (setup_tables_run db).2.2 = none
    ∧ (setup_tables_run ((setup_tables_run db).1)).2.1 = none
    ∧ (setup_tables_run ((setup_tables_run db).1)).2.2 = none := by
  cases hS : db.studentsTableExists <;> cases hSc : db.scoresTableExists <;>
    simp [setup_tables_run, create_students_table, create_scores_table,
      execute_query, createStudentsQuery, createScoresQuery, hS, hSc]

/-- C4: execute_query always leaves its scoped cursor closed; on success
it re-raises nothing and prints the success line exactly when
print_success is set; on an operational, programming or integrity failure
it prints a diagnostic containing the query name, re-raises the error
exactly when raise_exc is set, and leaves the state unchanged. -/
theorem execute_query_spec (q : Query) (query_name : String)
    (raise_exc print_success : Bool) (db : DB) :
    (execute_query q query_name raise_exc print_success db).cursor.closed = true
    ∧ (∀ db2 rows rc, q db = .ok (db2, rows, rc) →
        (execute_query q query_name raise_exc print_success db).raised = none
        ∧ (execute_query q query_name raise_exc print_success db).db = db2
        ∧ (execute_query q query_name raise_exc print_success db).output
            = if print_success then [querySuccessMsg query_name] else [])
    ∧ (∀ e, q db = .error e →
        (execute_query q query_name raise_exc print_success db).output
            = [queryFailMsg query_name e.msg]
        ∧ (∃ pre post, queryFailMsg query_name e.msg
            = pre ++ (query_name ++ post))
        ∧ (execute_query q query_name raise_exc print_success db).raised
            = (if raise_exc then some e else none)
        ∧ (execute_query q query_name raise_exc print_success db).db = db) := by
  refine ⟨?_, ?_, ?_⟩
  · cases h : q db with
    | ok v => simp [execute_query, h]
    | error e => simp [execute_query, h]
  · intro db2 rows rc h
    simp [execute_query, h]
  · intro e h
    exact ⟨by simp [execute_query, h],
      ⟨"Failed to ", ": error \u0022" ++ (e.msg ++ "\u0022 occurred."), rfl⟩,
      by simp [execute_query, h], by simp [execute_query, h]⟩

/-- Witness for C4 at concrete inputs: a successful statement swallows
nothing, and a failing statement with raise_exc set re-raises. -/
theorem execute_query_spec_witness :
    (execute_query trivialQuery "probe" false true sampleDB).raised = none
    ∧ (execute_query failingQuery "probe" true true sampleDB).raised
        = some ⟨.operational, "server closed the connection unexpectedly"⟩ :=
  ⟨((execute_query_spec trivialQuery "probe" false true sampleDB).2.1
      sampleDB [] 0 rfl).1,
   (((execute_query_spec failingQuery "probe" true true sampleDB).2.2
      ⟨.operational, "server closed the connection unexpectedly"⟩ rfl).2.2).1⟩

/-- C3: execute_query_return_cursor returns the live, unclosed cursor on
success; on an operational, programming or integrity failure it prints a
diagnostic and returns absence, and when raise_exc is set it closes the
cursor it opened before re-raising. -/
theorem execute_query_return_cursor_spec (q : Query) (query_name : String)
    (raise_exc print_success : Bool) (db : DB) :
    (∀ db2 rows rc, q db = .ok (db2, rows, rc) →
        (execute_query_return_cursor q query_name raise_exc print_success db).returned
            = some ⟨rows, rc, false⟩
        ∧ (execute_query_return_cursor q query_name raise_exc print_success db).raised
            = none
        ∧ (execute_query_return_cursor q query_name raise_exc print_success db).db
            = db2)
    ∧ (∀ e, q db = .error e →
        (execute_query_return_cursor q query_name raise_exc print_success db).output
            = [queryFailMsg query_name e.msg]
        ∧ (raise_exc = false →
            (execute_query_return_cursor q query_name raise_exc print_success db).returned
              = none
            ∧ (execute_query_return_cursor q query_name raise_exc print_success db).raised
              = none)
        ∧ (raise_exc = true →
            (execute_query_return_cursor q query_name raise_exc print_success db).raised
              = some e
            ∧ (execute_query_return_cursor q query_name raise_exc print_success db).cursor.closed
              = true
            ∧ (execute_query_return_cursor q query_name raise_exc print_success db).returned
              = none)) := by
  constructor
  · intro db2 rows rc h
    simp [execute_query_return_cursor, h]
  · intro e h
    refine ⟨?_, ?_, ?_⟩
    · cases raise_exc <;> simp [execute_query_return_cursor, h]
    · intro hre
      subst hre
      simp [execute_query_return_cursor, h]
    · intro hre
      subst hre
      simp [execute_query_return_cursor, h]

/-- Witness for C3 at concrete inputs: success hands back a live cursor,
and a raising failure closes the cursor it opened. -/
theorem execute_query_return_cursor_spec_witness :
    (execute_query_return_cursor trivialQuery "probe" false true sampleDB).returned
        = some ⟨[], 0, false⟩
    ∧ (execute_query_return_cursor failingQuery "probe" true true sampleDB).cursor.closed
        = true :=
  ⟨((execute_query_return_cursor_spec trivialQuery "probe" false true sampleDB).1
      sampleDB [] 0 rfl).1,
   (((execute_query_return_cursor_spec failingQuery "probe" true true sampleDB).2
      ⟨.operational, "server closed the connection unexpectedly"⟩ rfl).2.2 rfl).2.1⟩

/-- The per-row student insert loop never fails when the students table
exists: every insert succeeds, nothing is printed (print_success is
cleared), and the table keeps existing. -/
theorem runStudentInserts_ok (rows : List StudentRow) (db : DB)
    (h : db.studentsTableExists = true) :
    (runStudentInserts rows db).2.2 = none
    ∧ (runStudentInserts rows db).2.1 = []
    ∧ (runStudentInserts rows db).1.studentsTableExists = true := by
  induction rows generalizing db with
  | nil => simpa [runStudentInserts] using h
  | cons row rest ih =>
    have hstep := ih { db with
      students := db.students ++ [⟨db.nextStudentId, row.1, row.2.1, row.2.2⟩]
      nextStudentId := db.nextStudentId + 1 } h
    simp only [h] at hstep
    simpa [runStudentInserts, execute_query, insertStudentQuery, h]
      using hstep

/-- C1 counterexample: populating a database whose students table is
missing makes the very first per-row insert fail; the error re-raises out
of insert_students (raise_exc is passed as True) and the blanket final
success message is never printed, contradicting the claim that per-row
failures are continued past without re-raising. -/
theorem insert_population_counterexample :
    (insert_students fakeStudents 2 emptyDB).raised ≠ none
    ∧ studentsFilledMsg ∉ (insert_students fakeStudents 2 emptyDB).output := by
  decide

/-- C1 amended: each per-row insert of the populator passes raise_exc, so
a failing insert prints its diagnostic, re-raises and aborts the loop with
no blanket success line and no change to the state; the blanket line
prints only when every row insert succeeded.  Likewise for insert_scores:
a failing score insert re-raises and the scores blanket line is absent. -/
theorem insert_population_raises (fakeS : Nat → StudentRow)
    (fakeSc : Nat → Int) (n : Nat) (db : DB) :
    (db.studentsTableExists = false → 0 < n →
      (insert_students fakeS n db).raised = some errNoStudents
      ∧ (insert_students fakeS n db).output
          = [queryFailMsg "insert students" errNoStudents.msg]
      ∧ (insert_students fakeS n db).db = db)
    ∧ (db.studentsTableExists = true →
      (insert_students fakeS n db).raised = none
      ∧ (insert_students fakeS n db).output = [studentsFilledMsg])
    ∧ (db.studentsTableExists = true → db.scoresTableExists = false →
        db.students ≠ [] →
      (insert_scores fakeSc db).raised = some errNoScores
      ∧ scoresFilledMsg ∉ (insert_scores fakeSc db).output) := by
  refine ⟨?_, ?_, ?_⟩
  · intro hS hn
    obtain ⟨m, rfl⟩ : ∃ m, n = m + 1 :=
      ⟨n - 1, (Nat.succ_pred_eq_of_pos hn).symm⟩
    simp [insert_students, studentRows, List.range_succ_eq_map,
      runStudentInserts, execute_query, insertStudentQuery, hS]
  · intro hS
    obtain ⟨h1, h2, _⟩ := runStudentInserts_ok (studentRows fakeS n) db hS
    simp [insert_students, h1, h2]
  · intro hS hSc hne
    cases hstu : db.students with
    | nil => exact absurd hstu hne
    | cons s rest =>
      constructor
      · simp [insert_scores, execute_query_return_cursor, selectIdsQuery,
          hS, hSc, hstu, runScoreInserts, execute_query, insertScoreQuery,
          extractId]
      · have hout : (insert_scores fakeSc db).output
            = [querySuccessMsg "select students\u0027 identifiers",
               queryFailMsg "insert scores" errNoScores.msg] := by
          simp [insert_scores, execute_query_return_cursor, selectIdsQuery,
            hS, hSc, hstu, runScoreInserts, execute_query, insertScoreQuery,
            extractId]
        rw [hout]
        decide

/-- Witness for the amended C1 at concrete inputs: a missing students
table aborts the student inserts, a present one completes them, and a
missing scores table aborts the score inserts. -/
theorem insert_population_raises_witness :
    (insert_students fakeStudents 2 emptyDB).raised = some errNoStudents
    ∧ (insert_students fakeStudents 2 emptyTablesDB).raised = none
    ∧ (insert_scores fakeScores noScoresDB).raised = some errNoScores :=
  ⟨((insert_population_raises fakeStudents fakeScores 2 emptyDB).1
      rfl (by decide)).1,
   ((insert_population_raises fakeStudents fakeScores 2 emptyTablesDB).2.1
      rfl).1,
   ((insert_population_raises fakeStudents fakeScores 2 noScoresDB).2.2
      rfl rfl (by decide)).1⟩

/-- C5: fetch_group never yields more rows than the fixed ROW_LIMIT cap of
30, whatever the database holds; on success it returns the row list and
prints the found line exactly when the list is non-empty, and on execution
failure it returns absence. -/
theorem fetch_group_spec (g : Int) (db : DB) :
    (db.studentsTableExists = true →
      ∃ rows, (fetch_group g db).result = some rows
        ∧ rows.length ≤ ROW_LIMIT
        ∧ (rows = [] →
            (fetch_group g db).output = [querySuccessMsg "fetch group"])
        ∧ (rows ≠ [] →
            (fetch_group g db).output
              = [querySuccessMsg "fetch group", fetchedMsg g]))
    ∧ (db.studentsTableExists = false →
        (fetch_group g db).result = none) := by
  constructor
  · intro hS
    refine ⟨fetchGroupRows db g, ?_, ?_, ?_, ?_⟩
    · simp [fetch_group, execute_query_return_cursor, fetchGroupQuery, hS]
    · simp only [fetchGroupRows, List.length_map]
      exact List.length_take_le ROW_LIMIT _
    · intro hnil
      simp [fetch_group, execute_query_return_cursor, fetchGroupQuery, hS, hnil]
    · intro hne
      simp [fetch_group, execute_query_return_cursor, fetchGroupQuery, hS, hne]
  · intro hS
    simp [fetch_group, execute_query_return_cursor, fetchGroupQuery, hS]

/-- Witness for C5 at concrete inputs: a populated group comes back as a
row list within the cap, and a missing table yields absence. -/
theorem fetch_group_spec_witness :
    (∃ rows, (fetch_group 8 sampleDB).result = some rows
      ∧ rows.length ≤ ROW_LIMIT)
    ∧ (fetch_group 8 emptyDB).result = none := by
  refine ⟨?_, (fetch_group_spec 8 emptyDB).2 rfl⟩
  obtain ⟨rows, h1, h2, _⟩ := (fetch_group_spec 8 sampleDB).1 rfl
  exact ⟨rows, h1, h2⟩

/-- C6: with both tables present, calculate_group_average_score prints the
formatted average exactly when the aggregate row carries a non-null
average, and the not-found line otherwise; a group with zero students
yields the null average and hence the not-found line, never a null-average
print. -/
theorem group_average_spec (g : Int) (db : DB) :
    db.studentsTableExists = true → db.scoresTableExists = true →
    ((calculate_group_average_score g db).output
      = [querySuccessMsg "calculate group\u0027s average score",
         match groupAvg db g with
         | none => noGroupMsg g
         | some q => avgLineOf g (Value.vrat q)]
    ∧ (db.students.filter (fun s => s.group == g) = [] →
        groupAvg db g = none)) := by
  intro hS hSc
  constructor
  · cases hA : groupAvg db g with
    | none =>
      simp [calculate_group_average_score, execute_query_return_cursor,
        avgQuery, hS, hSc, hA]
    | some q =>
      simp [calculate_group_average_score, execute_query_return_cursor,
        avgQuery, hS, hSc, hA]
  · intro hf
    simp [groupAvg, groupScores, hf]

/-- Witness for C6 at concrete inputs: group 8 of the sample database has
a non-null average and gets the formatted line, and an empty students
table gives the null average. -/
theorem group_average_spec_witness :
    (calculate_group_average_score 8 sampleDB).output
      = [querySuccessMsg "calculate group\u0027s average score",
         match groupAvg sampleDB 8 with
         | none => noGroupMsg 8
         | some q => avgLineOf 8 (Value.vrat q)]
    ∧ groupAvg emptyTablesDB 8 = none :=
  ⟨(group_average_spec 8 sampleDB rfl rfl).1,
   (group_average_spec 8 emptyTablesDB rfl rfl).2 rfl⟩

/-- A conditional rewrite that fires on no element leaves the list
unchanged. -/
theorem map_if_id {α : Type} (l : List α) (p : α → Bool) (f : α → α)
    (h : ∀ a ∈ l, p a = false) :
    l.map (fun a => if p a then f a else a) = l := by
  induction l with
  | nil => rfl
  | cons a as ih =>
    simp [h a (List.mem_cons_self a as),
      ih (fun b hb => h b (List.mem_cons_of_mem a hb))]

/-- C7: the three row-count-branching mutators print the no-match line
exactly when the affected-row count is zero and the success line
otherwise, close the cursor in both cases, and a zero count leaves the
mutated table unchanged. -/
theorem mutators_rowcount_spec (db : DB) (sid ng ns grp : Int) :
    (db.studentsTableExists = true →
      ((db.students.filter (fun s => s.id == sid)).length = 0 →
        (update_group sid ng db).output
          = [querySuccessMsg "update student\u0027s group", noMatchStudentMsg sid]
        ∧ (update_group sid ng db).db.students = db.students)
      ∧ ((db.students.filter (fun s => s.id == sid)).length ≠ 0 →
        (update_group sid ng db).output
          = [querySuccessMsg "update student\u0027s group",
             updateGroupOkMsg sid ng])
      ∧ (∃ c, (update_group sid ng db).cursorFinal = some c
          ∧ c.closed = true)
      ∧ ((db.students.filter (fun s => s.group == grp)).length = 0 →
        (delete_group grp db).output
          = [querySuccessMsg "delete group", noMatchGroupMsg grp]
        ∧ (delete_group grp db).db.students = db.students)
      ∧ ((db.students.filter (fun s => s.group == grp)).length ≠ 0 →
        (delete_group grp db).output
          = [querySuccessMsg "delete group",
             deleteOkMsg (Int.ofNat
               (db.students.filter (fun s => s.group == grp)).length) grp])
      ∧ (∃ c, (delete_group grp db).cursorFinal = some c
          ∧ c.closed = true))
    ∧ (db.scoresTableExists = true →
      ((db.scores.filter (fun sc => sc.studentId == sid)).length = 0 →
        (update_score sid ns db).output
          = [querySuccessMsg "update student\u0027s score", noMatchStudentMsg sid]
        ∧ (update_score sid ns db).db.scores = db.scores)
      ∧ ((db.scores.filter (fun sc => sc.studentId == sid)).length ≠ 0 →
        (update_score sid ns db).output
          = [querySuccessMsg "update student\u0027s score",
             updateScoreOkMsg sid ns])
      ∧ (∃ c, (update_score sid ns db).cursorFinal = some c
          ∧ c.closed = true)) := by
  constructor
  · intro hS
    refine ⟨?_, ?_, ?_, ?_, ?_, ?_⟩
    · intro h0
      have hnil : db.students.filter (fun s => s.id == sid) = [] :=
        List.length_eq_zero.mp h0
      have hall : ∀ s ∈ db.students, (s.id == sid) = false := by
        intro s hs
        have := List.filter_eq_nil_iff.mp hnil s hs
        simpa using this
      refine ⟨?_, ?_⟩
      · simp [update_group, execute_query_return_cursor, updateGroupQuery,
          hS, hnil]
      · have hmap := map_if_id db.students (fun s => s.id == sid)
          (fun s => { s with group := ng }) hall
        simp only [beq_iff_eq] at hmap
        simp [update_group, execute_query_return_cursor, updateGroupQuery,
          hS, hnil, hmap]
    · intro h0
      simp [update_group, execute_query_return_cursor, updateGroupQuery,
        hS, h0, Int.ofNat_eq_zero]
    · have hcf : (update_group sid ng db).cursorFinal
          = some ⟨[], Int.ofNat
              (db.students.filter (fun s => s.id == sid)).length, true⟩ := by
        by_cases h0 : (db.students.filter (fun s => s.id == sid)).length = 0 <;>
          simp [update_group, execute_query_return_cursor, updateGroupQuery,
            hS, h0, Int.ofNat_eq_zero]
      exact ⟨_, hcf, rfl⟩
    · intro h0
      have hnil : db.students.filter (fun s => s.group == grp) = [] :=
        List.length_eq_zero.mp h0
      have hall : ∀ s ∈ db.students, (s.group == grp) = false := by
        intro s hs
        have := List.filter_eq_nil_iff.mp hnil s hs
        simpa using this
      refine ⟨?_, ?_⟩
      · simp [delete_group, execute_query_return_cursor, deleteGroupQuery,
          hS, hnil]
      · have hkeep : db.students.filter (fun s => !(s.group == grp))
            = db.students :=
          List.filter_eq_self.mpr (by intro s hs; simp [hall s hs])
        simp [delete_group, execute_query_return_cursor, deleteGroupQuery,
          hS, hnil, hkeep]
    · intro h0
      simp [delete_group, execute_query_return_cursor, deleteGroupQuery,
        hS, h0, Int.ofNat_eq_zero]
    · have hcf : (delete_group grp db).cursorFinal
          = some ⟨[], Int.ofNat
              (db.students.filter (fun s => s.group == grp)).length, true⟩ := by
        by_cases h0 : (db.students.filter (fun s => s.group == grp)).length = 0 <;>
          simp [delete_group, execute_query_return_cursor, deleteGroupQuery,
            hS, h0, Int.ofNat_eq_zero]
      exact ⟨_, hcf, rfl⟩
  · intro hSc
    refine ⟨?_, ?_, ?_⟩
    · intro h0
      have hnil : db.scores.filter (fun sc => sc.studentId == sid) = [] :=
        List.length_eq_zero.mp h0
      have hall : ∀ sc ∈ db.scores, (sc.studentId == sid) = false := by
        intro sc hs
        have := List.filter_eq_nil_iff.mp hnil sc hs
        simpa using this
      refine ⟨?_, ?_⟩
      · simp [update_score, execute_query_return_cursor, updateScoreQuery,
          hSc, hnil]
      · have hmap := map_if_id db.scores (fun sc => sc.studentId == sid)
          (fun sc => { sc with score := ns }) hall
        simp only [beq_iff_eq] at hmap
        simp [update_score, execute_query_return_cursor, updateScoreQuery,
          hSc, hnil, hmap]
    · intro h0
      simp [update_score, execute_query_return_cursor, updateScoreQuery,
        hSc, h0, Int.ofNat_eq_zero]
    · have hcf : (update_score sid ns db).cursorFinal
          = some ⟨[], Int.ofNat
              (db.scores.filter (fun sc => sc.studentId == sid)).length, true⟩ := by
        by_cases h0 : (db.scores.filter (fun sc => sc.studentId == sid)).length = 0 <;>
          simp [update_score, execute_query_return_cursor, updateScoreQuery,
            hSc, h0, Int.ofNat_eq_zero]
      exact ⟨_, hcf, rfl⟩

/-- Witness for C7 at concrete inputs: updating an absent student prints
the no-match line and changes nothing, and updating a present one prints
the success line. -/
theorem mutators_rowcount_spec_witness :
    ((update_group 99 10 sampleDB).output
      = [querySuccessMsg "update student\u0027s group", noMatchStudentMsg 99]
      ∧ (update_group 99 10 sampleDB).db.students = sampleDB.students)
    ∧ (update_group 1 10 sampleDB).output
      = [querySuccessMsg "update student\u0027s group", updateGroupOkMsg 1 10]
    ∧ (update_score 2 77 sampleDB).output
      = [querySuccessMsg "update student\u0027s score", updateScoreOkMsg 2 77] :=
  ⟨((mutators_rowcount_spec sampleDB 99 10 77 2).1 rfl).1 (by decide),
   ((mutators_rowcount_spec sampleDB 1 10 77 2).1 rfl).2.1 (by decide),
   ((mutators_rowcount_spec sampleDB 2 10 77 2).2 rfl).2.1 (by decide)⟩

/-- The row-adding loop succeeds exactly when every row has the column
count. -/
theorem buildRows_ok_iff (rows : List Row) (n : Nat) :
    buildRows rows n = .ok () ↔ ∀ r ∈ rows, r.length = n := by
  induction rows with
  | nil => simp [buildRows]
  | cons r rest ih =>
    by_cases h : r.length = n
    · simp [buildRows, h, ih]
    · simp [buildRows, h]

/-- C8: print_table emits nothing when the row list is absent or empty;
when every row matches the column count it prints the rendered table, and
when some row mismatches it catches the ValueError and prints only the
diagnostic. -/
theorem print_table_spec (data : Option (List Row)) (cols : List String) :
    (data = none → print_table data cols = [])
    ∧ (data = some [] → print_table data cols = [])
    ∧ (∀ rows, data = some rows → rows ≠ [] →
        ((∀ r ∈ rows, r.length = cols.length) →
          print_table data cols = [renderTable cols rows])
        ∧ ((∃ r ∈ rows, r.length ≠ cols.length) →
          ∃ m, print_table data cols = [tableFailMsg m])) := by
  refine ⟨?_, ?_, ?_⟩
  · intro h
    subst h
    rfl
  · intro h
    subst h
    rfl
  · intro rows hd hne
    subst hd
    constructor
    · intro hall
      have hok : buildRows rows cols.length = .ok () :=
        (buildRows_ok_iff rows cols.length).mpr hall
      simp [print_table, hne, hok]
    · intro hex
      have hnotok : ¬ buildRows rows cols.length = .ok () := by
        rw [buildRows_ok_iff]
        push_neg
        obtain ⟨r, hr, hlen⟩ := hex
        exact ⟨r, hr, hlen⟩
      cases hb : buildRows rows cols.length with
      | ok u =>
        cases u
        exact absurd hb hnotok
      | error m =>
        exact ⟨m, by simp [print_table, hne, hb]⟩

/-- Witness for C8 at concrete inputs: absence prints nothing, a matching
shape prints the table, a mismatching shape prints only a diagnostic. -/
theorem print_table_spec_witness :
    print_table none ["id"] = []
    ∧ print_table (some [[Value.vint 1]]) ["id"]
        = [renderTable ["id"] [[Value.vint 1]]]
    ∧ (∃ m, print_table (some [[Value.vint 1]]) ["id", "name"]
        = [tableFailMsg m]) :=
  ⟨(print_table_spec none ["id"]).1 rfl,
   ((print_table_spec (some [[Value.vint 1]]) ["id"]).2.2
      [[Value.vint 1]] rfl (by decide)).1 (by decide),
   ((print_table_spec (some [[Value.vint 1]]) ["id", "name"]).2.2
      [[Value.vint 1]] rfl (by decide)).2 ⟨[Value.vint 1], by decide, by decide⟩⟩

/-- C9: clear_tables does nothing without a connection; with one whose
students table exists it issues the single truncate statement -- emptying
students, cascading to scores and restarting the identity sequence -- and
closes the connection, printing exactly the one success line. -/
theorem clear_tables_spec :
    clear_tables none = (none, [])
    ∧ (∀ c : Conn, c.db.studentsTableExists = true →
        clear_tables (some c)
          = (some ⟨{ c.db with students := [], scores := [], nextStudentId := 1 }, true⟩,
             [querySuccessMsg "clear tables"])) := by
  constructor
  · rfl
  · intro c hS
    simp [clear_tables, execute_query, truncateQuery, hS]

/-- Witness for C9 at a concrete connection over the sample database. -/
theorem clear_tables_spec_witness :
    clear_tables (some ⟨sampleDB, false⟩)
      = (some ⟨{ sampleDB with students := [], scores := [], nextStudentId := 1 }, true⟩,
         [querySuccessMsg "clear tables"]) :=
  clear_tables_spec.2 ⟨sampleDB, false⟩ rfl

/-- Inserting into the sort keeps one more element. -/
theorem insertLe_length {α : Type} (le : α → α → Bool) (a : α)
    (l : List α) : (insertLe le a l).length = l.length + 1 := by
  induction l with
  | nil => rfl
  | cons b bs ih =>
    by_cases h : le a b <;> simp [insertLe, h, ih]

/-- The sort preserves length. -/
theorem sortLe_length {α : Type} (le : α → α → Bool) (l : List α) :
    (sortLe le l).length = l.length := by
  induction l with
  | nil => rfl
  | cons a as ih => simp [sortLe, insertLe_length, ih]

/-- The sort of a list is empty exactly when the list is. -/
theorem sortLe_eq_nil_iff {α : Type} (le : α → α → Bool) (l : List α) :
    sortLe le l = [] ↔ l = [] := by
  constructor
  · intro h
    have hl := sortLe_length le l
    rw [h] at hl
    exact List.length_eq_zero.mp hl.symm
  · intro h
    subst h
    rfl

/-- C10: the three queriers return the empty list, not absence, when the
statement succeeds with no matching rows; absence arises exactly when the
statement itself fails, so a caller can tell no-match from failure. -/
theorem queriers_empty_vs_failure (db : DB) (g : Int)
    (pname tbl col : String) :
    ((fetch_group g db).result = none ↔ db.studentsTableExists = false)
    ∧ (db.studentsTableExists = true →
        (fetch_group g db).result = some (fetchGroupRows db g)
        ∧ (fetchGroupRows db g = []
            ↔ db.students.filter (fun s => s.group == g) = []))
    ∧ ((search_student_by_name pname db).result = none
        ↔ db.studentsTableExists = false)
    ∧ (db.studentsTableExists = true →
        (search_student_by_name pname db).result = some (searchRows db pname)
        ∧ (searchRows db pname = []
            ↔ db.students.filter (fun s => strHasSub s.name pname) = []))
    ∧ ((fetch_sorted_data tbl col db).result = none
        ↔ ∃ e, sortedQuery tbl col db = .error e)
    ∧ (∀ db2 rows rc, sortedQuery tbl col db = .ok (db2, rows, rc) →
        (fetch_sorted_data tbl col db).result = some rows)
    ∧ (db.studentsTableExists = true → validStudentCol col = true →
        (fetch_sorted_data "students" col db).result
          = some (sortedStudentRows db col)
        ∧ (sortedStudentRows db col = [] ↔ db.students = [])) := by
  refine ⟨?_, ?_, ?_, ?_, ?_, ?_, ?_⟩
  · cases hS : db.studentsTableExists <;>
      simp [fetch_group, execute_query_return_cursor, fetchGroupQuery, hS]
  · intro hS
    constructor
    · simp [fetch_group, execute_query_return_cursor, fetchGroupQuery, hS]
    · simp [fetchGroupRows, ROW_LIMIT, List.take_eq_nil_iff]
  · cases hS : db.studentsTableExists <;>
      simp [search_student_by_name, execute_query_return_cursor,
        searchQuery, hS]
  · intro hS
    constructor
    · simp [search_student_by_name, execute_query_return_cursor,
        searchQuery, hS]
    · simp [searchRows]
  · cases hq : sortedQuery tbl col db with
    | ok v =>
      simp [fetch_sorted_data, execute_query_return_cursor, hq]
    | error e =>
      simp [fetch_sorted_data, execute_query_return_cursor, hq]
  · intro db2 rows rc h
    simp [fetch_sorted_data, execute_query_return_cursor, h]
  · intro hS hcol
    constructor
    · simp [fetch_sorted_data, execute_query_return_cursor, sortedQuery,
        hS, hcol]
    · simp [sortedStudentRows, ROW_LIMIT, List.take_eq_nil_iff,
        sortLe_eq_nil_iff]

/-- Witness for C10 at concrete inputs: empty matches come back as the
empty list, a successful sorted fetch comes back as a list, and an unknown
table yields absence. -/
theorem queriers_empty_vs_failure_witness :
    (fetch_group 3 emptyTablesDB).result = some []
    ∧ (search_student_by_name "zzz" sampleDB).result = some []
    ∧ (fetch_sorted_data "students" "id" sampleDB).result
        = some (sortedStudentRows sampleDB "id")
    ∧ (fetch_sorted_data "nosuch" "id" sampleDB).result = none := by
  refine ⟨?_, ?_, ?_, ?_⟩
  · have h := ((queriers_empty_vs_failure emptyTablesDB 3 "zzz" "nosuch"
      "id").2.1 rfl).1
    rw [h]
    decide
  · have h := ((queriers_empty_vs_failure sampleDB 3 "zzz" "nosuch"
      "id").2.2.2.1 rfl).1
    rw [h]
    decide
  · exact ((queriers_empty_vs_failure sampleDB 3 "zzz" "nosuch"
      "id").2.2.2.2.2.2 rfl rfl).1
  · exact (queriers_empty_vs_failure sampleDB 3 "zzz" "nosuch"
      "id").2.2.2.2.1.mpr ⟨⟨.programming, "relation does not exist"⟩, rfl⟩
